import Mathlib

/-!
Verification of the image header parser in `workers/image-parser.js`.

The parser classifies a byte buffer as PNG or JPEG and extracts pixel
width/height from the header without decoding pixels:
  * `parsePNG`   : fixed-offset check of the PNG signature and IHDR chunk;
  * `parseJPEG`  : linear scan over JPEG marker segments looking for a
                   Start-Of-Frame (SOF) marker;
  * `inspectImageBuffer` : dispatcher trying PNG first, then JPEG, then
                   falling back to "unknown".

Buffers are modelled as `List Nat` (one entry per byte).  JavaScript
`DataView` accessors (`getUint8`, `getUint16`) throw a `RangeError` when the
access is out of bounds; we model every such accessor with an
`Except Unit`-valued read, so a thrown exception surfaces as `Except.error ()`.
Reads that the source guards with an explicit bounds check beforehand are
modelled with the total accessor `byteAt` (`getD` with default 0), which
agrees with the guarded `DataView` read.

The JPEG scanner's `while` loop is modelled with an explicit fuel parameter;
`parseJPEG` instantiates the fuel at `length + 1`, which is proven sufficient
(the scan cursor strictly increases on every iteration).
-/

deriving instance DecidableEq for Except

namespace DataMonkey

/-- Byte at index `i` (0 when out of range); used only where the source has
already established the index is in bounds. -/
def byteAt (bytes : List Nat) (i : Nat) : Nat := bytes.getD i 0

/-- Big-endian 16-bit read at `i` (matches `DataView.getUint16(i, false)`
on in-bounds indices). -/
def u16BE (bytes : List Nat) (i : Nat) : Nat :=
  256 * byteAt bytes i + byteAt bytes (i + 1)

/-- Big-endian 32-bit read at `i` (matches `DataView.getUint32(i, false)`
on in-bounds indices). -/
def u32BE (bytes : List Nat) (i : Nat) : Nat :=
  16777216 * byteAt bytes i + 65536 * byteAt bytes (i + 1) +
    256 * byteAt bytes (i + 2) + byteAt bytes (i + 3)

/-- Model of `DataView.getUint8(i)`: the byte at `i`, or a thrown `RangeError`
(modelled as `Except.error ()`) when `i` is out of bounds. -/
def getU8E (bytes : List Nat) (i : Nat) : Except Unit Nat :=
  if i < bytes.length then Except.ok (byteAt bytes i) else Except.error ()

/-- Model of `DataView.getUint16(i, false)`: big-endian 16-bit read, throwing when
`i + 2` exceeds the buffer length. -/
def getU16E (bytes : List Nat) (i : Nat) : Except Unit Nat :=
  if i + 2 ≤ bytes.length then Except.ok (u16BE bytes i) else Except.error ()

/-- Result record of a single detector (`{format, width, height}`). -/
structure Dims where
  format : String
  width : Nat
  height : Nat
deriving DecidableEq, Repr

/-- The record returned by `inspectImageBuffer`:
`{format, width, height, size}` with nullable dimensions. -/
structure InspectionResult where
  format : String
  width : Option Nat
  height : Option Nat
  size : Nat
deriving DecidableEq, Repr

/-- The 8-byte PNG signature `89 50 4E 47 0D 0A 1A 0A`. -/
def PNG_SIG : List Nat := [137, 80, 78, 71, 13, 10, 26, 10]

/-- Model of `parsePNG` from `workers/image-parser.js`: length check, signature
check (the source's `for` loop over the 8 signature bytes, written out),
IHDR chunk-type check at offset 12, then the fixed-offset dimension reads.
All reads are within the checked 24-byte bound, so no access can throw. -/
def parsePNG (bytes : List Nat) : Option Dims :=
  if bytes.length < 24 then none
  else if byteAt bytes 0 = 137 ∧ byteAt bytes 1 = 80 ∧ byteAt bytes 2 = 78 ∧
          byteAt bytes 3 = 71 ∧ byteAt bytes 4 = 13 ∧ byteAt bytes 5 = 10 ∧
          byteAt bytes 6 = 26 ∧ byteAt bytes 7 = 10 then
    if byteAt bytes 12 = 73 ∧ byteAt bytes 13 = 72 ∧
       byteAt bytes 14 = 68 ∧ byteAt bytes 15 = 82 then
      some { format := "png", width := u32BE bytes 16, height := u32BE bytes 20 }
    else none
  else none

/-- The recognized Start-Of-Frame marker codes (the source's
`JPEG_SOF_MARKERS` set). -/
def JPEG_SOF_MARKERS : List Nat :=
  [0xC0, 0xC1, 0xC2, 0xC3, 0xC5, 0xC6, 0xC7, 0xC9, 0xCA, 0xCB, 0xCD, 0xCE, 0xCF]

/-- The source's padding-skip loop: `marker = getUint8(offset+1); while
(marker === 0xFF) { offset++; marker = getUint8(offset+1); }`.  Returns the
final cursor together with the marker byte, or `error` when a read throws.
The fuel only bounds the recursion; `bytes.length + 1` is always enough
because every recursive step requires `offset + 1 < bytes.length`. -/
def skipFF (bytes : List Nat) : Nat → Nat → Except Unit (Nat × Nat)
  | _, 0 => Except.error ()
  | offset, fuel + 1 =>
    match getU8E bytes (offset + 1) with
    | Except.error e => Except.error e
    | Except.ok marker =>
      if marker = 255 then skipFF bytes (offset + 1) fuel
      else Except.ok (offset, marker)

/-- The source's `while (offset < view.byteLength)` segment-scan loop in
`parseJPEG`, fuel-indexed.  Segment-length and SOF-payload reads follow the
source exactly: the segment length and the precision/height reads are
guarded in bounds, while the width read (`getUint16(offset + 5)`) is only
guarded by `offset + 5 >= byteLength` and is therefore modelled with the
throwing accessor.  (The source binds the precision byte to an unused
local; it cannot throw under the same guard and is omitted here.) -/
def scanJPEG (bytes : List Nat) : Nat → Nat → Except Unit (Option Dims)
  | _, 0 => Except.error ()
  | offset, fuel + 1 =>
    if offset < bytes.length then
      if byteAt bytes offset ≠ 255 then scanJPEG bytes (offset + 1) fuel
      else
        match skipFF bytes offset (bytes.length + 1) with
        | Except.error e => Except.error e
        | Except.ok (off, marker) =>
          if marker = 217 then Except.ok none
          else if off + 2 + 2 > bytes.length then Except.ok none
          else if u16BE bytes (off + 2) < 2 then Except.ok none
          else if marker ∈ JPEG_SOF_MARKERS then
            if off + 2 + 5 ≥ bytes.length then Except.ok none
            else
              match getU16E bytes (off + 2 + 5) with
              | Except.error e => Except.error e
              | Except.ok w =>
                Except.ok (some { format := "jpeg", width := w,
                                  height := u16BE bytes (off + 2 + 3) })
          else scanJPEG bytes (off + 2 + u16BE bytes (off + 2)) fuel
    else Except.ok none

/-- Model of `parseJPEG` with an explicit fuel bound on the scan loop. -/
def parseJPEGFuel (bytes : List Nat) (fuel : Nat) : Except Unit (Option Dims) :=
  if bytes.length < 4 then Except.ok none
  else if byteAt bytes 0 = 255 ∧ byteAt bytes 1 = 216 then
    scanJPEG bytes 2 fuel
  else Except.ok none

/-- Model of `parseJPEG` from `workers/image-parser.js`: SOI check then segment
scan; fuel `length + 1` is sufficient (see `scanJPEG_fuel_congr`). -/
def parseJPEG (bytes : List Nat) : Except Unit (Option Dims) :=
  parseJPEGFuel bytes (bytes.length + 1)

/-- Model of `inspectImageBuffer` from `workers/image-parser.js`: PNG first, then
JPEG, then the "unknown" fallback; `size` is the input byte length.  An
exception escaping `parseJPEG` propagates. -/
def inspectImageBuffer (bytes : List Nat) : Except Unit InspectionResult :=
  match parsePNG bytes with
  | some png =>
    Except.ok { format := "png", width := some png.width,
                height := some png.height, size := bytes.length }
  | none =>
    match parseJPEG bytes with
    | Except.error e => Except.error e
    | Except.ok (some jpg) =>
      Except.ok { format := "jpeg", width := some jpg.width,
                  height := some jpg.height, size := bytes.length }
    | Except.ok none =>
      Except.ok { format := "unknown", width := none, height := none,
                  size := bytes.length }

/-- The spec's PNG scenario buffer:
`[89 50 4E 47 0D 0A 1A 0A][00 00 00 0D][IHDR][00 00 01 00][00 00 00 C8]`. -/
def pngExample : List Nat :=
  [0x89, 0x50, 0x4E, 0x47, 0x0D, 0x0A, 0x1A, 0x0A,
   0x00, 0x00, 0x00, 0x0D,
   0x49, 0x48, 0x44, 0x52,
   0x00, 0x00, 0x01, 0x00,
   0x00, 0x00, 0x00, 0xC8]

/-- The spec's JPEG scenario buffer:
`[FF D8][FF C0][00 0B][08][00 64][00 C8][...][FF D9]`. -/
def jpegExample : List Nat :=
  [0xFF, 0xD8, 0xFF, 0xC0, 0x00, 0x0B, 0x08, 0x00, 0x64, 0x00, 0xC8,
   0x00, 0x00, 0x00, 0x00, 0xFF, 0xD9]

/-- Statement that the buffer begins with the 8-byte PNG signature: pointwise equality
with `PNG_SIG` on the first 8 offsets. -/
def pngSigProp (bytes : List Nat) : Prop :=
  ∀ i, i < 8 → byteAt bytes i = byteAt PNG_SIG i

instance (bytes : List Nat) : Decidable (pngSigProp bytes) :=
  Nat.decidableBallLT 8 fun i _ => byteAt bytes i = byteAt PNG_SIG i

/-- The PNG detector's contract as worded in the spec: return a dimensions
record if and only if the buffer begins with the 8-byte PNG signature AND
is at least 24 bytes long AND the chunk type at byte offset 12 is the
ASCII characters `I`, `H`, `D`, `R`; on success, width is the big-endian
32-bit integer at offset 16 and height the one at offset 20. -/
def parsePNGSpec (bytes : List Nat) : Option Dims :=
  if 24 ≤ bytes.length ∧ pngSigProp bytes ∧
     byteAt bytes 12 = 73 ∧ byteAt bytes 13 = 72 ∧
     byteAt bytes 14 = 68 ∧ byteAt bytes 15 = 82 then
    some { format := "png", width := u32BE bytes 16, height := u32BE bytes 20 }
  else none

/-- Variant of `pngExample` with the 4-byte IHDR chunk-length field (bytes 8..11)
replaced by garbage; used to exhibit that the field is never inspected. -/
def pngExampleAlt : List Nat :=
  [0x89, 0x50, 0x4E, 0x47, 0x0D, 0x0A, 0x1A, 0x0A,
   0xDE, 0xAD, 0xBE, 0xEF,
   0x49, 0x48, 0x44, 0x52,
   0x00, 0x00, 0x01, 0x00,
   0x00, 0x00, 0x00, 0xC8]

/-- A JPEG whose SOF segment declares length 2 (covering only the length
field itself), yet is followed by plausible precision/height/width bytes. -/
def jpegShortSOF : List Nat :=
  [0xFF, 0xD8, 0xFF, 0xC0, 0x00, 0x02, 0x08, 0x00, 0x64, 0x00, 0xC8]

/-- A JPEG stream containing a single DHT (`FF C4`) segment and no SOF
before the EOI marker `FF D9`. -/
def jpegOnlyDHT : List Nat :=
  [0xFF, 0xD8, 0xFF, 0xC4, 0x00, 0x04, 0x00, 0x00, 0xFF, 0xD9]

/-- A JPEG whose first segment declares the invalid length 1. -/
def jpegBadLen : List Nat := [0xFF, 0xD8, 0xFF, 0xC0, 0x00, 0x01]

/-- When the byte after the cursor is not a padding `FF`, the skip loop
stops at once, returning the cursor and that byte as the marker. -/
theorem skipFF_step (bytes : List Nat) (offset fuel : Nat)
    (h : offset + 1 < bytes.length) (hm : byteAt bytes (offset + 1) ≠ 255) :
    skipFF bytes offset (fuel + 1) = Except.ok (offset, byteAt bytes (offset + 1)) := by
  simp [skipFF, getU8E, h, hm]

/-- The padding-skip loop never moves the cursor backwards. -/
theorem skipFF_ok_le (bytes : List Nat) :
    ∀ fuel offset o m, skipFF bytes offset fuel = Except.ok (o, m) → offset ≤ o := by
  intro fuel
  induction fuel with
  | zero => intro offset o m h; simp [skipFF] at h
  | succ f ih =>
    intro offset o m h
    simp only [skipFF, getU8E] at h
    by_cases hb : offset + 1 < bytes.length
    · simp only [hb, if_pos] at h
      by_cases hf : byteAt bytes (offset + 1) = 255
      · simp only [hf, if_pos] at h
        have := ih (offset + 1) o m h
        omega
      · simp only [hf, if_neg, ite_false] at h
        cases h
        omega
    · simp [hb] at h

/-- A SOF marker code is one of the thirteen values `C0..CF` minus
`C4, C8, CC`; in particular it is neither `FF` nor `D9`. -/
theorem sof_marker_cases (m : Nat) (hm : m ∈ JPEG_SOF_MARKERS) :
    m = 192 ∨ m = 193 ∨ m = 194 ∨ m = 195 ∨ m = 197 ∨ m = 198 ∨ m = 199 ∨
    m = 201 ∨ m = 202 ∨ m = 203 ∨ m = 205 ∨ m = 206 ∨ m = 207 := by
  simpa [JPEG_SOF_MARKERS] using hm

/-- Scan step at a recognized SOF marker with a length field of at least 2
and enough bytes for the dimension reads: the scan stops and returns the
big-endian height at `offset + 5` and width at `offset + 7`. -/
theorem scanJPEG_sof_eq (bytes : List Nat) (offset fuel : Nat)
    (hff : byteAt bytes offset = 255)
    (hm : byteAt bytes (offset + 1) ∈ JPEG_SOF_MARKERS)
    (hlen : offset + 9 ≤ bytes.length)
    (hseg : 2 ≤ u16BE bytes (offset + 2)) :
    scanJPEG bytes offset (fuel + 1) =
      Except.ok (some { format := "jpeg", width := u16BE bytes (offset + 7),
                        height := u16BE bytes (offset + 5) }) := by
  have h1 : offset < bytes.length := by omega
  have h2 : offset + 1 < bytes.length := by omega
  have hmc := sof_marker_cases _ hm
  have hm255 : ¬ byteAt bytes (offset + 1) = 255 := by omega
  have hmD9 : ¬ byteAt bytes (offset + 1) = 217 := by omega
  have e5 : offset + 2 + 3 = offset + 5 := by omega
  have e7 : offset + 2 + 5 = offset + 7 := by omega
  simp only [scanJPEG, skipFF_step bytes offset bytes.length h2 hm255, h1, if_pos,
    hff, getU16E, e5, e7]
  simp only [hmD9, ite_false, hm, if_pos,
    (show ¬ (offset + 2 + 2 > bytes.length) by omega),
    (show ¬ (u16BE bytes (offset + 2) < 2) by omega),
    (show ¬ (offset + 2 + 5 ≥ bytes.length) by omega),
    (show offset + 7 + 2 ≤ bytes.length by omega), ite_true, if_neg,
    not_false_iff, e5, e7]
  simp

/-- Scan step at the End-Of-Image marker `D9`: the scan stops with no
match. -/
theorem scanJPEG_d9_eq (bytes : List Nat) (offset fuel : Nat)
    (hb : offset + 1 < bytes.length)
    (hff : byteAt bytes offset = 255)
    (hd9 : byteAt bytes (offset + 1) = 217) :
    scanJPEG bytes offset (fuel + 1) = Except.ok none := by
  have h1 : offset < bytes.length := by omega
  have hm255 : ¬ byteAt bytes (offset + 1) = 255 := by omega
  simp only [scanJPEG, skipFF_step bytes offset bytes.length hb hm255, h1, if_pos,
    hff, hd9, ite_true]
  simp

/-- Scan step at a marker (other than `FF` padding or `D9`) whose declared
segment length is under 2: the whole scan fails immediately with no match. -/
theorem scanJPEG_badlen_eq (bytes : List Nat) (offset fuel : Nat)
    (hff : byteAt bytes offset = 255)
    (hm255 : byteAt bytes (offset + 1) ≠ 255)
    (hmD9 : byteAt bytes (offset + 1) ≠ 217)
    (hb : offset + 4 ≤ bytes.length)
    (hseg : u16BE bytes (offset + 2) < 2) :
    scanJPEG bytes offset (fuel + 1) = Except.ok none := by
  have h1 : offset < bytes.length := by omega
  have h2 : offset + 1 < bytes.length := by omega
  simp only [scanJPEG, skipFF_step bytes offset bytes.length h2 hm255, h1, if_pos,
    hff, hmD9, ite_false,
    (show ¬ (offset + 2 + 2 > bytes.length) by omega), hseg, ite_true]
  simp

/-- The scan result does not depend on the fuel once the fuel exceeds the
number of bytes left: every loop iteration strictly advances the cursor
(by 1 on a non-`FF` byte, otherwise past the marker and its declared
segment length of at least 2), so `bytes.length - offset` iterations
always suffice. -/
theorem scanJPEG_fuel_congr (bytes : List Nat) :
    ∀ f1 f2 offset, bytes.length - offset < f1 → bytes.length - offset < f2 →
      scanJPEG bytes offset f1 = scanJPEG bytes offset f2 := by
  intro f1
  induction f1 with
  | zero => intro f2 offset h1 _; omega
  | succ g1 ih =>
    intro f2 offset h1 h2
    match f2 with
    | 0 => omega
    | g2 + 1 =>
      rw [scanJPEG, scanJPEG]
      by_cases ho : offset < bytes.length
      · rw [if_pos ho, if_pos ho]
        by_cases hb : byteAt bytes offset ≠ 255
        · rw [if_pos hb, if_pos hb]
          exact ih g2 (offset + 1) (by omega) (by omega)
        · rw [if_neg hb, if_neg hb]
          rcases hsk : skipFF bytes offset (bytes.length + 1) with e | ⟨off, marker⟩
          · rfl
          · have hle := skipFF_ok_le bytes _ _ _ _ hsk
            dsimp only
            by_cases h9 : marker = 217
            · rw [if_pos h9, if_pos h9]
            · rw [if_neg h9, if_neg h9]
              by_cases hov : off + 2 + 2 > bytes.length
              · rw [if_pos hov, if_pos hov]
              · rw [if_neg hov, if_neg hov]
                by_cases hsl : u16BE bytes (off + 2) < 2
                · rw [if_pos hsl, if_pos hsl]
                · rw [if_neg hsl, if_neg hsl]
                  by_cases hsf : marker ∈ JPEG_SOF_MARKERS
                  · rw [if_pos hsf, if_pos hsf]
                  · rw [if_neg hsf, if_neg hsf]
                    exact ih g2 (off + 2 + u16BE bytes (off + 2)) (by omega) (by omega)
      · rw [if_neg ho, if_neg ho]

/-- The written-out signature comparison used by the source's `for` loop
coincides with the pointwise statement "the first 8 bytes are the PNG
signature". -/
theorem png_sig_iff (bytes : List Nat) :
    pngSigProp bytes ↔
      (byteAt bytes 0 = 137 ∧ byteAt bytes 1 = 80 ∧ byteAt bytes 2 = 78 ∧
       byteAt bytes 3 = 71 ∧ byteAt bytes 4 = 13 ∧ byteAt bytes 5 = 10 ∧
       byteAt bytes 6 = 26 ∧ byteAt bytes 7 = 10) := by
  constructor
  · intro h
    exact ⟨h 0 (by omega), h 1 (by omega), h 2 (by omega), h 3 (by omega),
           h 4 (by omega), h 5 (by omega), h 6 (by omega), h 7 (by omega)⟩
  · rintro ⟨s0, s1, s2, s3, s4, s5, s6, s7⟩ i hi
    interval_cases i <;>
      (first
        | rw [s0] | rw [s1] | rw [s2] | rw [s3]
        | rw [s4] | rw [s5] | rw [s6] | rw [s7]) <;>
      decide

/-- Claim C1 (code bug): the spec states that `inspectImageBuffer` is total
and that `parseJPEG` never throws, but the code performs two unguarded
`DataView` reads.  On `FF D8 00 FF` the marker read `getUint8(offset + 1)`
is out of bounds, and on a buffer truncated after the height bytes of a
SOF payload the width read `getUint16(offset + 5)` touches one byte past
the end (the guard `offset + 5 >= byteLength` is off by one).  Both raise
a `RangeError`, modelled here as `Except.error ()`. -/
theorem claim_C1_parser_throws :
    parseJPEG [0xFF, 0xD8, 0x00, 0xFF] = Except.error () ∧
    inspectImageBuffer [0xFF, 0xD8, 0x00, 0xFF] = Except.error () ∧
    parseJPEG [0xFF, 0xD8, 0xFF, 0xC0, 0x00, 0x0B, 0x08, 0x00, 0x64, 0x00] =
      Except.error () ∧
    inspectImageBuffer [0xFF, 0xD8, 0xFF, 0xC0, 0x00, 0x0B, 0x08, 0x00, 0x64, 0x00] =
      Except.error () := by
  decide

/-- Claim C2: `parsePNG` returns a dimensions record exactly under the
spec's contract (PNG signature, length at least 24, `IHDR` at offset 12,
big-endian dimensions at offsets 16 and 20), and the spec's concrete PNG
scenario yields format `png`, width 256, height 200. -/
theorem claim_C2_parsePNG_contract :
    (∀ bytes, parsePNG bytes = parsePNGSpec bytes) ∧
    parsePNG pngExample = some { format := "png", width := 256, height := 200 } ∧
    inspectImageBuffer pngExample =
      Except.ok { format := "png", width := some 256, height := some 200, size := 24 } := by
  refine ⟨?_, by decide, by decide⟩
  intro bytes
  unfold parsePNG parsePNGSpec
  by_cases h24 : bytes.length < 24
  · have hc : ¬(24 ≤ bytes.length ∧ pngSigProp bytes ∧
        byteAt bytes 12 = 73 ∧ byteAt bytes 13 = 72 ∧
        byteAt bytes 14 = 68 ∧ byteAt bytes 15 = 82) := by
      rintro ⟨hl, -⟩
      omega
    rw [if_pos h24, if_neg hc]
  · by_cases hsig : byteAt bytes 0 = 137 ∧ byteAt bytes 1 = 80 ∧ byteAt bytes 2 = 78 ∧
        byteAt bytes 3 = 71 ∧ byteAt bytes 4 = 13 ∧ byteAt bytes 5 = 10 ∧
        byteAt bytes 6 = 26 ∧ byteAt bytes 7 = 10
    · by_cases hihdr : byteAt bytes 12 = 73 ∧ byteAt bytes 13 = 72 ∧
          byteAt bytes 14 = 68 ∧ byteAt bytes 15 = 82
      · rw [if_neg h24, if_pos hsig, if_pos hihdr,
          if_pos ⟨by omega, (png_sig_iff bytes).mpr hsig, hihdr.1, hihdr.2.1,
                  hihdr.2.2.1, hihdr.2.2.2⟩]
      · have hc : ¬(24 ≤ bytes.length ∧ pngSigProp bytes ∧
            byteAt bytes 12 = 73 ∧ byteAt bytes 13 = 72 ∧
            byteAt bytes 14 = 68 ∧ byteAt bytes 15 = 82) := by
          rintro ⟨-, -, h12, h13, h14, h15⟩
          exact hihdr ⟨h12, h13, h14, h15⟩
        rw [if_neg h24, if_pos hsig, if_neg hihdr, if_neg hc]
    · have hc : ¬(24 ≤ bytes.length ∧ pngSigProp bytes ∧
          byteAt bytes 12 = 73 ∧ byteAt bytes 13 = 72 ∧
          byteAt bytes 14 = 68 ∧ byteAt bytes 15 = 82) := by
        rintro ⟨-, hall, -⟩
        exact hsig ((png_sig_iff bytes).mp hall)
      rw [if_neg h24, if_neg hsig, if_neg hc]

/-- Claim C3: whenever the JPEG segment scan reaches a marker in the
recognized SOF set whose 2-byte big-endian length field is valid (at
least 2) and whose dimension bytes are within the buffer, the scan stops
immediately (first SOF wins) and returns the big-endian height read at
`offset + 5` and width at `offset + 7` — i.e. 1 byte of precision then
height then width after the length field. -/
theorem claim_C3_jpeg_sof_extraction (bytes : List Nat) (offset fuel : Nat)
    (hff : byteAt bytes offset = 255)
    (hm : byteAt bytes (offset + 1) ∈ JPEG_SOF_MARKERS)
    (hlen : offset + 9 ≤ bytes.length)
    (hseg : 2 ≤ u16BE bytes (offset + 2)) :
    scanJPEG bytes offset (fuel + 1) =
      Except.ok (some { format := "jpeg", width := u16BE bytes (offset + 7),
                        height := u16BE bytes (offset + 5) }) :=
  scanJPEG_sof_eq bytes offset fuel hff hm hlen hseg

/-- Witness for C3 at the spec's JPEG scenario buffer
`[FF D8][FF C0][00 0B][08][00 64][00 C8][...][FF D9]`:
format `jpeg`, width 200, height 100. -/
theorem claim_C3_jpeg_sof_extraction_witness :
    (byteAt jpegExample 2 = 255 ∧ byteAt jpegExample 3 ∈ JPEG_SOF_MARKERS ∧
     2 + 9 ≤ jpegExample.length ∧ 2 ≤ u16BE jpegExample 4) ∧
    scanJPEG jpegExample 2 17 =
      Except.ok (some { format := "jpeg", width := u16BE jpegExample 9,
                        height := u16BE jpegExample 7 }) ∧
    parseJPEG jpegExample =
      Except.ok (some { format := "jpeg", width := 200, height := 100 }) ∧
    inspectImageBuffer jpegExample =
      Except.ok { format := "jpeg", width := some 200, height := some 100, size := 17 } :=
  ⟨by decide,
   by exact claim_C3_jpeg_sof_extraction jpegExample 2 16
        (by decide) (by decide) (by decide) (by decide),
   by decide, by decide⟩

/-- Claim C4: whenever `inspectImageBuffer` returns a result, its `size`
field is exactly the byte length of the input, for every format outcome;
and the function is deterministic (a pure function of the buffer, so two
inspections of the same buffer agree). -/
theorem claim_C4_size_invariant (bytes : List Nat) (r : InspectionResult)
    (h : inspectImageBuffer bytes = Except.ok r) :
    r.size = bytes.length ∧ inspectImageBuffer bytes = inspectImageBuffer bytes := by
  refine ⟨?_, rfl⟩
  unfold inspectImageBuffer at h
  cases hp : parsePNG bytes with
  | some d =>
    rw [hp] at h
    cases h
    rfl
  | none =>
    rw [hp] at h
    cases hj : parseJPEG bytes with
    | error e => rw [hj] at h; cases h
    | ok o =>
      rw [hj] at h
      cases o with
      | some d => cases h; rfl
      | none => cases h; rfl

/-- Witness for C4 on the empty buffer: size 0. -/
theorem claim_C4_size_invariant_witness :
    inspectImageBuffer [] =
      Except.ok { format := "unknown", width := none, height := none, size := 0 } ∧
    ({ format := "unknown", width := none, height := none, size := 0 } :
        InspectionResult).size = 0 :=
  ⟨by decide,
   (claim_C4_size_invariant []
      { format := "unknown", width := none, height := none, size := 0 }
      (by decide)).1⟩

/-- Claim C5: the SOF branch checks only that the length field is at
least 2 and that the fixed read offsets are inside the buffer; a declared
segment length between 2 and 6 does not cover the 5 dimension bytes, yet
`parseJPEG` still returns the width and height read at the fixed offsets
(bytes 7..10 here), past the declared segment end `4 + segLen ≤ 10`. -/
theorem claim_C5_short_sof_length_unchecked (bytes : List Nat)
    (hlen : 11 ≤ bytes.length)
    (h0 : byteAt bytes 0 = 255) (h1 : byteAt bytes 1 = 216)
    (h2 : byteAt bytes 2 = 255) (h3 : byteAt bytes 3 ∈ JPEG_SOF_MARKERS)
    (hseg2 : 2 ≤ u16BE bytes 4) (hseg6 : u16BE bytes 4 ≤ 6) :
    parseJPEG bytes =
      Except.ok (some { format := "jpeg", width := u16BE bytes 9,
                        height := u16BE bytes 7 }) ∧
    4 + u16BE bytes 4 ≤ 10 := by
  refine ⟨?_, by omega⟩
  unfold parseJPEG parseJPEGFuel
  rw [if_neg (by omega : ¬ bytes.length < 4), if_pos ⟨h0, h1⟩]
  exact scanJPEG_sof_eq bytes 2 bytes.length h2 h3 (by omega) hseg2

/-- Witness for C5: a SOF segment declaring length 2 still yields
width 200, height 100. -/
theorem claim_C5_short_sof_length_unchecked_witness :
    (11 ≤ jpegShortSOF.length ∧ u16BE jpegShortSOF 4 = 2) ∧
    parseJPEG jpegShortSOF =
      Except.ok (some { format := "jpeg", width := 200, height := 100 }) ∧
    4 + u16BE jpegShortSOF 4 ≤ 10 :=
  ⟨by decide,
   by exact (claim_C5_short_sof_length_unchecked jpegShortSOF (by decide) (by decide)
       (by decide) (by decide) (by decide) (by decide) (by decide)).1,
   by decide⟩

/-- Claim C6: reaching the End-Of-Image marker `D9` during the segment
scan stops the scan with no match. -/
theorem claim_C6_eoi_stops_scan (bytes : List Nat) (offset fuel : Nat)
    (hb : offset + 1 < bytes.length)
    (hff : byteAt bytes offset = 255)
    (hd9 : byteAt bytes (offset + 1) = 217) :
    scanJPEG bytes offset (fuel + 1) = Except.ok none :=
  scanJPEG_d9_eq bytes offset fuel hb hff hd9

/-- Witness for C6: a JPEG with a single DHT (`FF C4`) segment and then
`FF D9` is classified as `unknown`. -/
theorem claim_C6_eoi_stops_scan_witness :
    (8 + 1 < jpegOnlyDHT.length ∧ byteAt jpegOnlyDHT 8 = 255 ∧
     byteAt jpegOnlyDHT 9 = 217) ∧
    scanJPEG jpegOnlyDHT 8 6 = Except.ok none ∧
    parseJPEG jpegOnlyDHT = Except.ok none ∧
    inspectImageBuffer jpegOnlyDHT =
      Except.ok { format := "unknown", width := none, height := none, size := 10 } :=
  ⟨by decide,
   by exact claim_C6_eoi_stops_scan jpegOnlyDHT 8 5 (by decide) (by decide) (by decide),
   by decide, by decide⟩

/-- Claim C7: a 2-byte big-endian segment length under 2 makes the scan
fail immediately, returning no match for the whole buffer (no further
segments are skipped, no dimensions extracted). -/
theorem claim_C7_bad_segment_length (bytes : List Nat) (offset fuel : Nat)
    (hff : byteAt bytes offset = 255)
    (hm255 : byteAt bytes (offset + 1) ≠ 255)
    (hmD9 : byteAt bytes (offset + 1) ≠ 217)
    (hb : offset + 4 ≤ bytes.length)
    (hseg : u16BE bytes (offset + 2) < 2) :
    scanJPEG bytes offset (fuel + 1) = Except.ok none :=
  scanJPEG_badlen_eq bytes offset fuel hff hm255 hmD9 hb hseg

/-- Witness for C7: a first segment declaring length 1 yields no match
even though its marker is a SOF code. -/
theorem claim_C7_bad_segment_length_witness :
    (byteAt jpegBadLen 2 = 255 ∧ byteAt jpegBadLen 3 ≠ 255 ∧
     byteAt jpegBadLen 3 ≠ 217 ∧ 2 + 4 ≤ jpegBadLen.length ∧
     u16BE jpegBadLen 4 < 2) ∧
    scanJPEG jpegBadLen 2 7 = Except.ok none ∧
    parseJPEG jpegBadLen = Except.ok none ∧
    inspectImageBuffer jpegBadLen =
      Except.ok { format := "unknown", width := none, height := none, size := 6 } :=
  ⟨by decide,
   by exact claim_C7_bad_segment_length jpegBadLen 2 6
        (by decide) (by decide) (by decide) (by decide) (by decide),
   by decide, by decide⟩

/-- Claim C8: the segment scan terminates on every buffer — the cursor
strictly increases each iteration, so any fuel of at least
`bytes.length + 1` (one linear pass) gives the same result as
`parseJPEG`; `parseJPEG` and `inspectImageBuffer` are total functions of
the buffer (modulo the thrown-exception outcome, which also terminates). -/
theorem claim_C8_scan_terminates (bytes : List Nat) (fuel : Nat)
    (h : bytes.length + 1 ≤ fuel) :
    parseJPEGFuel bytes fuel = parseJPEG bytes := by
  unfold parseJPEG parseJPEGFuel
  by_cases h4 : bytes.length < 4
  · rw [if_pos h4, if_pos h4]
  · rw [if_neg h4, if_neg h4]
    by_cases hsoi : byteAt bytes 0 = 255 ∧ byteAt bytes 1 = 216
    · rw [if_pos hsoi, if_pos hsoi]
      exact scanJPEG_fuel_congr bytes fuel (bytes.length + 1) 2 (by omega) (by omega)
    · rw [if_neg hsoi, if_neg hsoi]

/-- Witness for C8: on the spec's JPEG scenario buffer, fuel 100 and the
canonical fuel agree. -/
theorem claim_C8_scan_terminates_witness :
    jpegExample.length + 1 ≤ 100 ∧
    parseJPEGFuel jpegExample 100 = parseJPEG jpegExample :=
  ⟨by decide, claim_C8_scan_terminates jpegExample 100 (by decide)⟩

/-- Claim C9: detection order — the PNG detector runs first and a PNG
match short-circuits (the result is `png` with the PNG dimensions, with no
assumption on the JPEG detector's outcome); the JPEG detector decides the
result only when `parsePNG` is `none`; and the `unknown` fallback is
produced exactly when both detectors return no match. -/
theorem claim_C9_detection_order (bytes : List Nat) :
    (∀ d, parsePNG bytes = some d →
      inspectImageBuffer bytes =
        Except.ok { format := "png", width := some d.width,
                    height := some d.height, size := bytes.length }) ∧
    (∀ d, parsePNG bytes = none → parseJPEG bytes = Except.ok (some d) →
      inspectImageBuffer bytes =
        Except.ok { format := "jpeg", width := some d.width,
                    height := some d.height, size := bytes.length }) ∧
    (parsePNG bytes = none → parseJPEG bytes = Except.ok none →
      inspectImageBuffer bytes =
        Except.ok { format := "unknown", width := none, height := none,
                    size := bytes.length }) ∧
    (∀ r, inspectImageBuffer bytes = Except.ok r → r.format = "unknown" →
      parsePNG bytes = none ∧ parseJPEG bytes = Except.ok none) := by
  refine ⟨?_, ?_, ?_, ?_⟩
  · intro d hd
    unfold inspectImageBuffer
    rw [hd]
  · intro d hp hj
    unfold inspectImageBuffer
    rw [hp, hj]
  · intro hp hj
    unfold inspectImageBuffer
    rw [hp, hj]
  · intro r h hfmt
    unfold inspectImageBuffer at h
    cases hp : parsePNG bytes with
    | some d =>
      rw [hp] at h
      cases h
      simp at hfmt
    | none =>
      rw [hp] at h
      cases hj : parseJPEG bytes with
      | error e => rw [hj] at h; cases h
      | ok o =>
        rw [hj] at h
        cases o with
        | some d =>
          cases h
          simp at hfmt
        | none => exact ⟨rfl, rfl⟩

/-- Witness for C9: on the spec's PNG scenario buffer the PNG detector
matches, and the dispatcher reports `png` 256×200. -/
theorem claim_C9_detection_order_witness :
    parsePNG pngExample = some { format := "png", width := 256, height := 200 } ∧
    inspectImageBuffer pngExample =
      Except.ok { format := "png", width := some 256, height := some 200, size := 24 } :=
  ⟨by decide,
   by exact (claim_C9_detection_order pngExample).1
        { format := "png", width := 256, height := 200 } (by decide)⟩

/-- Claim C10: `parsePNG` never inspects the IHDR chunk-length field
(bytes 8..11): two equal-length buffers, both at least 24 bytes, that
agree everywhere except possibly on bytes 8..11 parse identically. -/
theorem claim_C10_chunk_length_ignored (b1 b2 : List Nat)
    (hlen : b1.length = b2.length) (h24 : 24 ≤ b1.length)
    (hagree : ∀ i, i < b1.length → (i < 8 ∨ 12 ≤ i) → byteAt b1 i = byteAt b2 i) :
    parsePNG b1 = parsePNG b2 := by
  have e : ∀ i, (i < 8 ∨ 12 ≤ i) → i < 24 → byteAt b1 i = byteAt b2 i :=
    fun i hi hi24 => hagree i (by omega) hi
  unfold parsePNG u32BE
  rw [hlen,
    e 0 (by omega) (by omega), e 1 (by omega) (by omega),
    e 2 (by omega) (by omega), e 3 (by omega) (by omega),
    e 4 (by omega) (by omega), e 5 (by omega) (by omega),
    e 6 (by omega) (by omega), e 7 (by omega) (by omega),
    e 12 (by omega) (by omega), e 13 (by omega) (by omega),
    e 14 (by omega) (by omega), e 15 (by omega) (by omega),
    e 16 (by omega) (by omega), e 17 (by omega) (by omega),
    e 18 (by omega) (by omega), e 19 (by omega) (by omega),
    e 20 (by omega) (by omega), e 21 (by omega) (by omega),
    e 22 (by omega) (by omega), e 23 (by omega) (by omega)]

/-- Witness for C10: the spec's PNG buffer and the same buffer with
garbage in bytes 8..11 parse identically (both as `png` 256×200). -/
theorem claim_C10_chunk_length_ignored_witness :
    (pngExample.length = pngExampleAlt.length ∧ 24 ≤ pngExample.length ∧
     (∀ i, i < pngExample.length → (i < 8 ∨ 12 ≤ i) →
        byteAt pngExample i = byteAt pngExampleAlt i)) ∧
    parsePNG pngExample = parsePNG pngExampleAlt ∧
    parsePNG pngExampleAlt = some { format := "png", width := 256, height := 200 } :=
  ⟨by decide,
   claim_C10_chunk_length_ignored pngExample pngExampleAlt
     (by decide) (by decide) (by decide),
   by decide⟩

/-- Witness for C2: the code/spec agreement instantiated at the garbage
chunk-length buffer (a match) and at the empty buffer (a non-match). -/
theorem claim_C2_parsePNG_contract_witness :
    parsePNG pngExampleAlt = parsePNGSpec pngExampleAlt ∧
    parsePNG [] = parsePNGSpec [] :=
  ⟨claim_C2_parsePNG_contract.1 pngExampleAlt, claim_C2_parsePNG_contract.1 []⟩

end DataMonkey
